import Mathlib

/-!
Shallow embedding of the response-generation and escalation core of the
Customer-Agent repository: the `AIResponseService` (intent analysis, fallback
composition, confidence scoring, response validation, provider-failure
handling), `ShopifyOrdersService.extractOrderNumber`, and the
`CustomerSupportService.processEmail` pipeline.

Conventions of the embedding:
* Text is `String` / `List Char`; JavaScript regular expressions are
  translated into explicit scanning functions with the same match semantics
  (left-to-right scan, alternative order, greedy character classes, word
  boundaries over the ASCII word characters `[A-Za-z0-9_]`).
* JS numbers used by the core are decimal constants and sums; they are
  embedded as `Rat` (every constant in the source is exactly representable).
* TS optional parameters of array type are embedded as lists, with `undefined`
  identified with `[]` (the source only ever tests `x && x.length > 0` and
  slices them); optional strings are `Option String`, with the JS truthiness
  test on strings (`"" ` is falsy) made explicit where the source relies on it.
* Database row ids (cuid strings generated by prisma) are abstracted to `Nat`
  drawn from a fresh counter; timestamps are abstracted to opaque strings.
-/

/-- ASCII word character, as in the JS regex class `\w` = `[A-Za-z0-9_]`. -/
def isWordChar (c : Char) : Bool :=
  (('A' ≤ c && c ≤ 'Z') || ('a' ≤ c && c ≤ 'z') || ('0' ≤ c && c ≤ '9') || c == '_')

/-- ASCII whitespace matched by the JS regex class `\s`. -/
def isSpaceChar (c : Char) : Bool :=
  c == ' ' || c == '\t' || c == '\n' || c == '\r' || c == '\x0b' || c == '\x0c'

/-- ASCII decimal digit, as in the JS regex class `\d`. -/
def isDigitChar (c : Char) : Bool := '0' ≤ c && c ≤ '9'

/-- Lower-case a character sequence (JS `String.prototype.toLowerCase` on the
ASCII texts the core matches against). -/
def lowerList (s : List Char) : List Char := s.map Char.toLower

/-- Does `t` start with the exact pattern `p`? -/
def startsWithList : List Char → List Char → Bool
  | _, [] => true
  | [], _ :: _ => false
  | c :: cs, d :: ds => (c == d) && startsWithList cs ds

/-- Does `t` start with pattern `p`, comparing case-insensitively (the `/i`
regex flag)? -/
def startsWithListCI : List Char → List Char → Bool
  | _, [] => true
  | [], _ :: _ => false
  | c :: cs, d :: ds => (c.toLower == d.toLower) && startsWithListCI cs ds

/-- Substring containment (JS `String.prototype.includes`). -/
def containsSub (p : List Char) : List Char → Bool
  | [] => p.isEmpty
  | c :: rest => startsWithList (c :: rest) p || containsSub p rest

/-- Case-insensitive substring containment. -/
def containsSubCI (p : List Char) : List Char → Bool
  | [] => p.isEmpty
  | c :: rest => startsWithListCI (c :: rest) p || containsSubCI p rest

/-- Auxiliary scan for `\bw\b`: `pre` is the character immediately before the
current position (`none` at the start of the text). -/
def hasWordAux (w : List Char) : Option Char → List Char → Bool
  | pre, t =>
    ((match pre with | none => true | some c => !(isWordChar c)) &&
     startsWithList t w &&
     (match t.drop w.length with | [] => true | c :: _ => !(isWordChar c)))
    ||
    (match t with
     | [] => false
     | c :: rest => hasWordAux w (some c) rest)

/-- Does the text match `\bw\b` somewhere (the word/phrase `w` delimited by
word boundaries)?  All lexicon entries of the source start and end with word
characters, for which the JS `\b` assertion reduces to the neighbouring
character not being a word character. -/
def hasWord (t : List Char) (w : String) : Bool := hasWordAux w.data none t

/-- Does the text match `\b(w1|w2|...)\b` (some lexicon entry at some
position)? -/
def hasAnyWord (t : List Char) (ws : List String) : Bool := ws.any (hasWord t)

/-- Lexicon of `/\b(status|where|when|delivered|arrive|shipped|shipping|delivery|tracking|track)\b/`. -/
def statusWords : List String :=
  ["status", "where", "when", "delivered", "arrive", "shipped", "shipping",
   "delivery", "tracking", "track"]

/-- Lexicon of `/\b(track|tracking|number)\b/`. -/
def trackWords : List String := ["track", "tracking", "number"]

/-- Lexicon of `/\b(return|refund|exchange|cancel|defective|wrong|broken|damaged)\b/`. -/
def returnWords : List String :=
  ["return", "refund", "exchange", "cancel", "defective", "wrong", "broken", "damaged"]

/-- Lexicon of `/\b(blue light|prescription|lens|frame|size|fit|color|style|recommend)\b/`. -/
def productWords : List String :=
  ["blue light", "prescription", "lens", "frame", "size", "fit", "color",
   "style", "recommend"]

/-- Lexicon of `/\b(problem|issue|complaint|disappointed|unhappy|terrible|awful|angry|frustrated)\b/`. -/
def complaintWords : List String :=
  ["problem", "issue", "complaint", "disappointed", "unhappy", "terrible",
   "awful", "angry", "frustrated"]

/-- Lexicon of `/\b(urgent|asap|immediately|emergency|help|please help)\b/`. -/
def urgencyWords : List String :=
  ["urgent", "asap", "immediately", "emergency", "help", "please help"]

/-- Character class `[A-Z0-9-]` under the `/i` flag (the capture class of the
classifier's inline order-number regex). -/
def isOrderTokenChar (c : Char) : Bool :=
  (('A' ≤ c && c ≤ 'Z') || ('a' ≤ c && c ≤ 'z') || ('0' ≤ c && c ≤ '9') || c == '-')

/-- Greedy run of `[A-Z0-9-]+` characters. -/
def takeOrderTokenChars : List Char → List Char
  | [] => []
  | c :: rest => if isOrderTokenChar c then c :: takeOrderTokenChars rest else []

/-- Greedy run of `\d+` characters. -/
def takeDigits : List Char → List Char
  | [] => []
  | c :: rest => if isDigitChar c then c :: takeDigits rest else []

/-- Tail of the classifier's inline regex `/(?:order|#)\s*([A-Z0-9-]+)/i`
after the `(?:order|#)` alternative: skip `\s*`, then capture a non-empty
greedy `[A-Z0-9-]+` run (whitespace and the capture class are disjoint, so
the backtracking regex is equivalent to this deterministic scan). -/
def orderTokenTail (t : List Char) : Option (List Char) :=
  let cap := takeOrderTokenChars (t.dropWhile isSpaceChar)
  if cap.isEmpty then none else some cap

/-- Left-to-right scan for the classifier's inline regex
`/(?:order|#)\s*([A-Z0-9-]+)/i`: at each position the alternative `order`
(case-insensitive) is tried first, then `#`; the first full match yields the
capture group. -/
def inlineOrderScan : List Char → Option (List Char)
  | [] => none
  | c :: rest =>
    let t := c :: rest
    match (if startsWithListCI t ['o', 'r', 'd', 'e', 'r'] then orderTokenTail (t.drop 5) else none) with
    | some cap => some cap
    | none =>
      match (if c == '#' then orderTokenTail rest else none) with
      | some cap => some cap
      | none => inlineOrderScan rest

/-- Order number extracted by `analyzeCustomerQuery` via
`query.match(/(?:order|#)\s*([A-Z0-9-]+)/i)` (capture group 1 of the first
match, `undefined` when there is no match). -/
def extractInlineOrderNumber (query : String) : Option String :=
  (inlineOrderScan query.data).map fun l => ⟨l⟩

/-- Result shape of `AIResponseService.analyzeCustomerQuery`. -/
structure QueryAnalysis where
  intent : String
  keywords : List String
  orderNumber : Option String
  urgency : String
  requiresEscalation : Bool
deriving DecidableEq, Repr

/-- AIResponseService.analyzeCustomerQuery: case-insensitive keyword matching
in a fixed order; later branches overwrite the intent chosen by earlier ones,
and escalation/urgency flags, once set, are never reset. -/
def analyzeCustomerQuery (query : String) : QueryAnalysis :=
  let lowerQuery := lowerList query.data
  let a0 : QueryAnalysis :=
    { intent := "general_inquiry", keywords := [],
      orderNumber := extractInlineOrderNumber query,
      urgency := "medium", requiresEscalation := false }
  -- Order status related keywords
  let a1 :=
    if hasAnyWord lowerQuery statusWords then
      { a0 with keywords := a0.keywords ++ ["status", "shipping"],
                intent := if hasAnyWord lowerQuery trackWords then "shipping_tracking"
                          else "order_status" }
    else a0
  -- Return and refund keywords
  let a2 :=
    if hasAnyWord lowerQuery returnWords then
      { a1 with keywords := a1.keywords ++ ["return", "refund"],
                intent := "return_refund", requiresEscalation := true }
    else a1
  -- Product inquiry keywords
  let a3 :=
    if hasAnyWord lowerQuery productWords then
      { a2 with keywords := a2.keywords ++ ["product"], intent := "product_inquiry" }
    else a2
  -- Complaint/issue keywords
  let a4 :=
    if hasAnyWord lowerQuery complaintWords then
      { a3 with keywords := a3.keywords ++ ["complaint"], intent := "complaint_issue",
                urgency := "high", requiresEscalation := true }
    else a3
  -- Urgency indicators
  let a5 :=
    if hasAnyWord lowerQuery urgencyWords then
      { a4 with urgency := "high", requiresEscalation := true }
    else a4
  a5

/-- Fulfillment record of a `ShopifyOrder` (fields used by the core; the
GraphQL layer may return null tracking data, embedded as `Option`/lists). -/
structure Fulfillment where
  status : String
  trackingCompany : String
  trackingNumbers : List String
  trackingUrls : List String
  estimatedDeliveryAt : Option String
  deliveredAt : Option String
  createdAt : String
deriving DecidableEq, Repr

/-- Line item of a `ShopifyOrder`. -/
structure LineItem where
  title : String
  quantity : Nat
  variantTitle : String
  sku : String
  price : String
deriving DecidableEq, Repr

/-- Shipping address of a `ShopifyOrder`. -/
structure ShippingAddress where
  city : String
  province : String
  country : String
deriving DecidableEq, Repr

/-- Order snapshot produced by `ShopifyOrdersService` (the fields the
response core reads). -/
structure ShopifyOrder where
  orderNumber : String
  processedAt : String
  fulfillmentStatus : String
  financialStatus : String
  totalPrice : String
  shippingAddress : ShippingAddress
  items : List LineItem
  fulfillments : List Fulfillment
deriving DecidableEq, Repr

/-- Similar past response returned by the RAG collaborator.  The similarity is
a rational in place of the source's float. -/
structure SimilarResponse where
  id : String
  category : String
  query : String
  response : String
  similarity : Rat
  createdAt : String
deriving DecidableEq, Repr

/-- Scan for the pattern `/#(\d+)/`: first `#` immediately followed by at
least one digit; the capture is the greedy digit run. -/
def hashDigitsScan : List Char → Option (List Char)
  | [] => none
  | c :: rest =>
    if c == '#' then
      let d := takeDigits rest
      if d.isEmpty then hashDigitsScan rest else some d
    else hashDigitsScan rest

/-- Tail of `/order\s+(?:number\s+)?(\d+)/i` after the literal `order`:
`\s+`, optional `number\s+` (tried first, as the regex engine does), then a
non-empty digit run. -/
def orderDigitsTail (t : List Char) : Option (List Char) :=
  if (t.takeWhile isSpaceChar).isEmpty then none
  else
    let r1 := t.dropWhile isSpaceChar
    let withNumberWord :=
      if startsWithListCI r1 ['n', 'u', 'm', 'b', 'e', 'r'] then
        let r2 := r1.drop 6
        if (r2.takeWhile isSpaceChar).isEmpty then none
        else
          let d := takeDigits (r2.dropWhile isSpaceChar)
          if d.isEmpty then none else some d
      else none
    match withNumberWord with
    | some d => some d
    | none =>
      let d := takeDigits r1
      if d.isEmpty then none else some d

/-- Scan for `/order\s+(?:number\s+)?(\d+)/i`. -/
def orderDigitsScan : List Char → Option (List Char)
  | [] => none
  | c :: rest =>
    let t := c :: rest
    match (if startsWithListCI t ['o', 'r', 'd', 'e', 'r'] then orderDigitsTail (t.drop 5) else none) with
    | some d => some d
    | none => orderDigitsScan rest

/-- Tail of `/order\s+#(\d+)/i` after the literal `order`: `\s+`, `#`, then a
non-empty digit run. -/
def orderHashDigitsTail (t : List Char) : Option (List Char) :=
  if (t.takeWhile isSpaceChar).isEmpty then none
  else
    match t.dropWhile isSpaceChar with
    | '#' :: r => let d := takeDigits r; if d.isEmpty then none else some d
    | _ => none

/-- Scan for `/order\s+#(\d+)/i`. -/
def orderHashDigitsScan : List Char → Option (List Char)
  | [] => none
  | c :: rest =>
    let t := c :: rest
    match (if startsWithListCI t ['o', 'r', 'd', 'e', 'r'] then orderHashDigitsTail (t.drop 5) else none) with
    | some d => some d
    | none => orderHashDigitsScan rest

/-- Scan for `/\b(\d{4,})\b/` carrying the previous character: a maximal digit
run of length at least 4 whose neighbours on both sides are not word
characters.  (When the character after the maximal run is a word character
every shorter prefix of the run also fails the trailing `\b`, so the
backtracking regex is equivalent to this test on maximal runs.) -/
def fourDigitRunScan : Option Char → List Char → Option (List Char)
  | _, [] => none
  | pre, c :: rest =>
    let t := c :: rest
    let boundaryOk := match pre with | none => true | some p => !(isWordChar p)
    if boundaryOk && isDigitChar c then
      let run := takeDigits t
      if 4 ≤ run.length &&
         (match t.drop run.length with | [] => true | a :: _ => !(isWordChar a)) then
        some run
      else fourDigitRunScan (some c) rest
    else fourDigitRunScan (some c) rest

/-- ShopifyOrdersService.extractOrderNumber: the four patterns `/#(\d+)/`,
`/order\s+(?:number\s+)?(\d+)/i`, `/order\s+#(\d+)/i`, `/\b(\d{4,})\b/` are
tried in order and the first match anywhere in the text wins. -/
def extractOrderNumber (text : String) : Option String :=
  match hashDigitsScan text.data with
  | some d => some ⟨d⟩
  | none =>
    match orderDigitsScan text.data with
    | some d => some ⟨d⟩
    | none =>
      match orderHashDigitsScan text.data with
      | some d => some ⟨d⟩
      | none =>
        match fourDigitRunScan none text.data with
        | some d => some ⟨d⟩
        | none => none

/-- Left brace character (used by the placeholder checks). -/
def lbrace : Char := Char.ofNat 123

/-- Right brace character. -/
def rbrace : Char := Char.ofNat 125

/-- Scan used by `/\[.*\]/`: from the position after a `[`, is there a `]`
before the end of the line (`.` does not match a line terminator)? -/
def closingBefLineEnd (close : Char) : List Char → Bool
  | [] => false
  | c :: rest =>
    if c == '\n' || c == '\r' then false
    else if c == close then true
    else closingBefLineEnd close rest

/-- Does the text match `/\[.*\]/` (a `[` with a `]` later on the same
line)? -/
def bracketPairHit : List Char → Bool
  | [] => false
  | c :: rest => (c == '[' && closingBefLineEnd ']' rest) || bracketPairHit rest

/-- Scan used by `/\{\{.*\}\}/`: from the position after `{{`, is there a
`}}` (two adjacent closing braces) before the end of the line? -/
def doubleCloseBefLineEnd : List Char → Bool
  | [] => false
  | c :: rest =>
    if c == '\n' || c == '\r' then false
    else (c == rbrace && (match rest with | d :: _ => d == rbrace | [] => false))
         || doubleCloseBefLineEnd rest

/-- Does the text match `/\{\{.*\}\}/`? -/
def doubleBraceHit : List Char → Bool
  | [] => false
  | c :: rest =>
    (c == lbrace && (match rest with | d :: ds => d == lbrace && doubleCloseBefLineEnd ds | [] => false))
    || doubleBraceHit rest

/-- Does the response match `/\[.*\]|\{\{.*\}\}|PLACEHOLDER|TODO|XXX/i` (the
validator's placeholder test)? -/
def placeholderHit (response : String) : Bool :=
  bracketPairHit response.data || doubleBraceHit response.data ||
  containsSubCI "PLACEHOLDER".data response.data ||
  containsSubCI "TODO".data response.data ||
  containsSubCI "XXX".data response.data

/-- Scan used by `/order.*\d+/i` and `/order.*#\d+/i`: from a position after
the literal, look for the target before the end of the line. -/
def digitBefLineEnd : List Char → Bool
  | [] => false
  | c :: rest =>
    if c == '\n' || c == '\r' then false
    else isDigitChar c || digitBefLineEnd rest

/-- Scan for `order` (case-insensitive) followed on the same line by a
digit — the second alternative of `/#\d+|order.*\d+/i`. -/
def orderThenDigit : List Char → Bool
  | [] => false
  | c :: rest =>
    (startsWithListCI (c :: rest) ['o', 'r', 'd', 'e', 'r'] && digitBefLineEnd ((c :: rest).drop 5))
    || orderThenDigit rest

/-- Scan for `#` immediately followed by a digit (`/#\d+/`). -/
def hashThenDigit : List Char → Bool
  | [] => false
  | c :: rest =>
    (c == '#' && (match rest with | d :: _ => isDigitChar d | [] => false))
    || hashThenDigit rest

/-- Scan used by `/order.*#\d+/i` inside the confidence scorer: `order`
(case-insensitive) followed on the same line by `#` and a digit. -/
def hashDigitBefLineEnd : List Char → Bool
  | [] => false
  | c :: rest =>
    if c == '\n' || c == '\r' then false
    else (c == '#' && (match rest with | d :: _ => isDigitChar d | [] => false))
         || hashDigitBefLineEnd rest

/-- Scan for the middle alternative of `/tracking|order.*#\d+|delivery|shipping/i`. -/
def orderThenHashDigit : List Char → Bool
  | [] => false
  | c :: rest =>
    (startsWithListCI (c :: rest) ['o', 'r', 'd', 'e', 'r'] && hashDigitBefLineEnd ((c :: rest).drop 5))
    || orderThenHashDigit rest

/-- Does the response match `/tracking|order.*#\d+|delivery|shipping/i` (the
confidence scorer's specific-details test)? -/
def specificDetailsHit (response : String) : Bool :=
  containsSubCI "tracking".data response.data ||
  orderThenHashDigit response.data ||
  containsSubCI "delivery".data response.data ||
  containsSubCI "shipping".data response.data

/-- AIResponseService.calculateConfidence: start at 0.5; +0.3 with order
data; + mean evidence similarity × 0.2 with evidence; −0.2 for short text;
−0.3 for placeholder markers; +0.1 for specific shipping/tracking details;
clamped into [0,1] by `Math.max(0, Math.min(1, confidence))`. -/
def calculateConfidence (response : String) (orderData : List ShopifyOrder)
    (similarResponses : List SimilarResponse) : Rat :=
  let c0 : Rat := 1/2
  let c1 := if orderData.length > 0 then c0 + 3/10 else c0
  let c2 :=
    if similarResponses.length > 0 then
      let avgSimilarity :=
        (similarResponses.foldl (fun sum r => sum + r.similarity) (0 : Rat)) /
          (similarResponses.length : Rat)
      c1 + avgSimilarity * (1/5)
    else c1
  let c3 := if response.length < 50 then c2 - 1/5 else c2
  let c4 :=
    if response.data.contains '[' || containsSub [lbrace, lbrace] response.data ||
       containsSub "PLACEHOLDER".data response.data then
      c3 - 3/10
    else c3
  let c5 := if specificDetailsHit response then c4 + 1/10 else c4
  max 0 (min 1 c5)

/-- Result shape of `AIResponseService.validateResponse`. -/
structure ValidationResult where
  isValid : Bool
  issues : List String
  warnings : List String
  score : Rat
deriving DecidableEq, Repr

/-- Fixed courtesy-word list of the validator. -/
def professionalWords : List String :=
  ["thank you", "appreciate", "help", "assist", "sorry", "apologize"]

/-- AIResponseService.validateResponse: two hard issues (length < 30,
placeholder markers), three warnings (length > 1000, missing courtesy word,
"your order" without an order-number pattern); `isValid` iff no issue;
`score = max(0, 1 − 0.3·issues − 0.1·warnings)`. -/
def validateResponse (response : String) : ValidationResult :=
  let issues : List String :=
    (if response.length < 30 then ["Response is too short"] else []) ++
    (if placeholderHit response then ["Response contains placeholders or incomplete information"] else [])
  let warnings : List String :=
    (if response.length > 1000 then ["Response is quite long"] else []) ++
    (if !(professionalWords.any fun word => containsSub word.data (lowerList response.data)) then
       ["Response may lack professional courtesy words"] else []) ++
    (if containsSub "your order".data response.data &&
        !(hashThenDigit response.data || orderThenDigit response.data) then
       ["Response mentions order but lacks specific order details"] else [])
  { isValid := issues.length == 0
    issues := issues
    warnings := warnings
    score := max 0 (1 - (issues.length : Rat) * (3/10) - (warnings.length : Rat) * (1/10)) }

/-- JS template fragment `customerName ? ` ${customerName}` : ''`: a leading
space plus the name when it is present and non-empty (the empty string is
falsy in JS). -/
def nameSuffix (customerName : Option String) : String :=
  match customerName with
  | some s => if s.isEmpty then "" else " " ++ s
  | none => ""

/-- AIResponseService.getOrderStatusDetails. -/
def getOrderStatusDetails (order : ShopifyOrder) : String :=
  if order.fulfillmentStatus == "shipped" then
    "Your order has been shipped and is on its way to you!"
  else if order.fulfillmentStatus == "delivered" then
    "Your order has been delivered."
  else if order.fulfillmentStatus == "pending" then
    "Your order is being prepared and will ship soon."
  else if order.fulfillmentStatus == "processing" then
    "Your order is currently being processed."
  else
    "Your order is being handled by our team."

/-- AIResponseService.generateOrderStatusResponse. -/
def generateOrderStatusResponse (customerName : Option String) (_query : String)
    (orderData : List ShopifyOrder) (analysis : QueryAnalysis) : String :=
  let name := nameSuffix customerName
  match orderData with
  | order :: _ =>
    "Hi" ++ name ++ ", thank you for your inquiry about your order. I can see you have order #"
      ++ order.orderNumber ++ " with a " ++ order.fulfillmentStatus ++ " status. "
      ++ getOrderStatusDetails order
      ++ " Our team will provide you with any additional updates you need. If you have any other questions, please let us know!"
  | [] =>
    match analysis.orderNumber with
    | some n =>
      "Hi" ++ name ++ ", thank you for asking about order #" ++ n
        ++ ". I'm looking up the details for this order and will get back to you within 30 minutes with a complete status update. If this is urgent, please call our customer service line at your convenience."
    | none =>
      "Hi" ++ name ++ ", thank you for your order status inquiry. To provide you with accurate information, I'll need to look up your order details. Could you please provide your order number? Alternatively, our customer service team can help you immediately by phone."

/-- AIResponseService.generateShippingResponse.  The
`toLocaleDateString` rendering of the estimated delivery date is abstracted
to the stored date string. -/
def generateShippingResponse (customerName : Option String) (_query : String)
    (orderData : List ShopifyOrder) (_analysis : QueryAnalysis) : String :=
  let name := nameSuffix customerName
  match orderData with
  | order :: _ =>
    match order.fulfillments with
    | fulfillment :: _ =>
      let tracking := fulfillment.trackingNumbers.head?
      "Hi" ++ name ++ ", your order #" ++ order.orderNumber ++ " has shipped! "
        ++ (match tracking with
            | some t => "Your tracking number is " ++ t ++ " with " ++ fulfillment.trackingCompany ++ "."
            | none => "You should receive tracking information shortly.")
        ++ " "
        ++ (match fulfillment.estimatedDeliveryAt with
            | some d => if d.isEmpty then "" else "Expected delivery: " ++ d ++ "."
            | none => "")
        ++ " You can track your package directly on the carrier's website."
    | [] =>
      "Hi" ++ name ++ ", your order #" ++ order.orderNumber
        ++ " is currently being prepared for shipment. You'll receive tracking information as soon as it ships, typically within 1-2 business days. Thank you for your patience!"
  | [] =>
    "Hi" ++ name ++ ", I'd be happy to help you track your order! Could you please provide your order number so I can give you the most up-to-date tracking information? Our customer service team is also available to assist you immediately."

/-- AIResponseService.generateReturnRefundResponse. -/
def generateReturnRefundResponse (customerName : Option String) (_query : String)
    (_orderData : List ShopifyOrder) (_analysis : QueryAnalysis) : String :=
  let name := nameSuffix customerName
  "Hi" ++ name ++ ", I understand you'd like to discuss a return or refund. We offer a 30-day return policy and want to make this process as easy as possible for you. Our customer service team will review your specific situation and provide you with return instructions and a prepaid shipping label if needed. You'll hear back from us within 2 hours, or feel free to call our customer service line for immediate assistance."

/-- AIResponseService.generateProductInquiryResponse. -/
def generateProductInquiryResponse (customerName : Option String) (query : String)
    (_orderData : List ShopifyOrder) (_analysis : QueryAnalysis) : String :=
  let name := nameSuffix customerName
  let productSpecific :=
    if containsSub "blue light".data (lowerList query.data) then
      " Our blue light glasses filter 90% of harmful blue light and can significantly reduce eye strain from digital screens."
    else if containsSub "prescription".data (lowerList query.data) then
      " We work with licensed opticians to ensure your prescription is perfectly crafted for your new frames."
    else ""
  "Hi" ++ name ++ ", thank you for your interest in our eyewear products!" ++ productSpecific
    ++ " Our customer service team will provide you with detailed information to help you make the best choice for your needs. You'll receive a comprehensive response within 2-4 hours, or call us for immediate assistance with product selection."

/-- AIResponseService.generateComplaintResponse. -/
def generateComplaintResponse (customerName : Option String) (_query : String)
    (_orderData : List ShopifyOrder) (_analysis : QueryAnalysis) : String :=
  let name := nameSuffix customerName
  "Hi" ++ name ++ ", I sincerely apologize for any inconvenience you've experienced. Your concern is very important to us, and I want to make sure we resolve this properly. A senior customer service representative will personally review your case and contact you within 1 hour to discuss how we can make this right. If you prefer immediate assistance, please call our customer service line and mention this is a priority case."

/-- AIResponseService.generateGeneralResponse. -/
def generateGeneralResponse (customerName : Option String) (query : String)
    (_orderData : List ShopifyOrder) (_analysis : QueryAnalysis) : String :=
  let name := nameSuffix customerName
  let lowerQuery := lowerList query.data
  if containsSub "hours".data lowerQuery || containsSub "open".data lowerQuery ||
     containsSub "when".data lowerQuery then
    "Hi" ++ name ++ ", thank you for your inquiry! Our customer service team is available Monday-Friday 9 AM to 6 PM EST. You can also reach us anytime through this email system, and we typically respond within a few hours during business days. How can we help you today?"
  else if containsSub "policy".data lowerQuery || containsSub "return".data lowerQuery ||
          containsSub "warranty".data lowerQuery then
    "Hi" ++ name ++ ", thank you for asking about our policies! We offer a 30-day return policy for all our eyewear products. If you're not completely satisfied, you can return items in original condition for a full refund or exchange. Our customer service team can provide detailed policy information and help with any returns. What specific information do you need?"
  else if containsSub "prescription".data lowerQuery || containsSub "glasses".data lowerQuery ||
          containsSub "lens".data lowerQuery then
    "Hi" ++ name ++ ", thank you for your interest in our eyewear! We offer both prescription and non-prescription glasses, including blue light blocking lenses. Our team can help you with frame selection, lens options, and prescription requirements. What specific questions do you have about our products?"
  else if containsSub "shipping".data lowerQuery || containsSub "delivery".data lowerQuery ||
          containsSub "cost".data lowerQuery then
    "Hi" ++ name ++ ", thank you for your shipping inquiry! We offer free standard shipping on orders over $50, with delivery typically taking 5-7 business days. Expedited shipping options are also available. Our team can provide specific shipping details and costs for your location. What would you like to know?"
  else
    "Hi" ++ name ++ ", thank you for reaching out! I've received your message regarding \""
      ++ (if query.length > 50 then (⟨query.data.take 50⟩ : String) ++ "..." else query)
      ++ "\" and I want to make sure we provide you with the most helpful response. Our customer service team is reviewing your specific question and will get back to you shortly with detailed information. Is there anything urgent I can help you with right now?"

/-- Parameter record of `AIResponseService.generateResponse` and
`generateFallbackResponse`. -/
structure GenerateParams where
  customerQuery : String
  customerEmail : String
  customerName : Option String
  orderData : List ShopifyOrder
  similarResponses : List SimilarResponse
  category : Option String
  context : Option String
deriving DecidableEq, Repr

/-- Result record `AIGeneratedResponse`. -/
structure AIGeneratedResponse where
  response : String
  confidence : Rat
  reasoning : String
  shouldEscalate : Bool
  promptUsed : String
  modelUsed : String
  tokensUsed : Nat
deriving DecidableEq, Repr

/-- AIResponseService.generateFallbackResponse (the intent-driven fallback):
analyze the query, dispatch to the matching composer, assign the
strategy-specific base confidence, and escalate when the classifier demands
it or the confidence is below 0.7. -/
def generateFallbackResponse (params : GenerateParams) (errorType : String) :
    AIGeneratedResponse :=
  let queryAnalysis := analyzeCustomerQuery params.customerQuery
  let pair : String × Rat :=
    if queryAnalysis.intent == "order_status" then
      (generateOrderStatusResponse params.customerName params.customerQuery params.orderData queryAnalysis, 3/4)
    else if queryAnalysis.intent == "shipping_tracking" then
      (generateShippingResponse params.customerName params.customerQuery params.orderData queryAnalysis, 3/4)
    else if queryAnalysis.intent == "return_refund" then
      (generateReturnRefundResponse params.customerName params.customerQuery params.orderData queryAnalysis, 7/10)
    else if queryAnalysis.intent == "product_inquiry" then
      (generateProductInquiryResponse params.customerName params.customerQuery params.orderData queryAnalysis, 13/20)
    else if queryAnalysis.intent == "complaint_issue" then
      (generateComplaintResponse params.customerName params.customerQuery params.orderData queryAnalysis, 4/5)
    else
      (generateGeneralResponse params.customerName params.customerQuery params.orderData queryAnalysis, 3/5)
  let reasoning :=
    "Intelligent fallback response (" ++ errorType ++ ") - detected intent: "
      ++ queryAnalysis.intent ++ ", keywords: " ++ String.intercalate ", " queryAnalysis.keywords
  { response := pair.1
    confidence := pair.2
    reasoning := reasoning ++ (if params.orderData.length > 0 then " with order data" else "")
    shouldEscalate := queryAnalysis.requiresEscalation || decide (pair.2 < 7/10)
    promptUsed := "Smart fallback analysis - Intent: " ++ queryAnalysis.intent
    modelUsed := "intelligent_fallback"
    tokensUsed := 0 }

/-- Exact rational rendering standing in for the source's decimal
`toFixed(1)` formatting (the formatted number feeds only human-readable
reasoning/prompt strings). -/
def ratStr (q : Rat) : String := toString q.num ++ "/" ++ toString q.den

/-- Error value thrown by the OpenAI client, with the optional HTTP status
and error code the catch-chain of `generateResponse` inspects. -/
structure OpenAIError where
  status : Option Nat
  code : Option String
deriving DecidableEq, Repr

/-- Successful chat completion: the message text and total token usage
(`response.choices[0]?.message?.content?.trim() || ''` and
`response.usage?.total_tokens || 0` are applied by the caller). -/
structure Completion where
  text : String
  tokensUsed : Nat
deriving DecidableEq, Repr

/-- Failure classification of the catch-chain in
`AIResponseService.generateResponse` (lines 79–112): each branch recognises
one failure class of the taxonomy and the final branch catches everything
else. -/
def classifyOpenAIError (e : OpenAIError) : String :=
  if e.status == some 429 || e.code == some "insufficient_quota" ||
     e.code == some "rate_limit_exceeded" then "rate_limit"
  else if e.status == some 401 || e.code == some "invalid_api_key" then "auth_error"
  else if e.status == some 503 || e.status == some 502 ||
          e.code == some "service_unavailable" then "service_unavailable"
  else if e.status == some 400 || e.code == some "invalid_request_error" then "invalid_request"
  else if e.code == some "context_length_exceeded" then "context_too_long"
  else if e.code == some "ECONNREFUSED" || e.code == some "ENOTFOUND" ||
          e.code == some "ETIMEDOUT" then "network_error"
  else "unknown_error"

/-- AIResponseService.extractReasoning. -/
def extractReasoning (response : String) (orderData : List ShopifyOrder)
    (similarResponses : List SimilarResponse) : String :=
  let reasons : List String :=
    (if orderData.length > 0 then
       ["Found " ++ toString orderData.length ++ " order(s) for customer"]
     else ["No order data available"]) ++
    (if similarResponses.length > 0 then
       let avgSimilarity :=
         (similarResponses.foldl (fun sum r => sum + r.similarity) (0 : Rat)) /
           (similarResponses.length : Rat)
       [toString similarResponses.length ++ " similar responses found (avg similarity: "
         ++ ratStr (avgSimilarity * 100) ++ "%)"]
     else []) ++
    (if response.length < 50 then ["Response may be too brief"] else []) ++
    (if response.data.contains '[' || containsSub [lbrace, lbrace] response.data then
       ["Response contains placeholders"] else [])
  String.intercalate "; " reasons

/-- Prompt fragment for one order record in `buildPrompt`
(`toLocaleDateString` is abstracted to the stored date string). -/
def orderPromptBlock (idx : Nat) (order : ShopifyOrder) : String :=
  "\nOrder " ++ toString (idx + 1) ++ ":\n- Order Number: " ++ order.orderNumber
    ++ "\n- Status: " ++ order.fulfillmentStatus
    ++ "\n- Financial Status: " ++ order.financialStatus
    ++ "\n- Order Date: " ++ order.processedAt
    ++ "\n- Total: " ++ order.totalPrice
    ++ "\n- Items: " ++ String.intercalate ", "
         (order.items.map fun item => toString item.quantity ++ "x " ++ item.title)
    ++ "\n- Shipping Address: " ++ order.shippingAddress.city ++ ", "
    ++ order.shippingAddress.province ++ ", " ++ order.shippingAddress.country ++ "\n"
    ++ (match order.fulfillments with
        | fulfillment :: _ =>
          "- Shipping: "
            ++ (if fulfillment.trackingCompany.isEmpty then "Standard Shipping"
                else fulfillment.trackingCompany)
            ++ (match fulfillment.trackingNumbers with
                | t :: _ => " (Tracking: " ++ t ++ ")"
                | [] => "")
            ++ (match fulfillment.estimatedDeliveryAt with
                | some d => if d.isEmpty then "" else " - ETA: " ++ d
                | none => "")
            ++ "\n"
        | [] => "")

/-- Prompt fragment for one similar past response in `buildPrompt`. -/
def similarPromptBlock (idx : Nat) (r : SimilarResponse) : String :=
  "\nReference " ++ toString (idx + 1) ++ " (Similarity: " ++ ratStr (r.similarity * 100)
    ++ "%):\nQuery: \"" ++ r.query ++ "\"\nResponse: \"" ++ r.response ++ "\"\n"

/-- AIResponseService.buildPrompt. -/
def buildPrompt (params : GenerateParams) : String :=
  let customerLabel :=
    match params.customerName with
    | some s => if s.isEmpty then params.customerEmail else s
    | none => params.customerEmail
  let p0 :=
    "\nCustomer Support Query Analysis:\n\nCustomer: " ++ customerLabel
      ++ "\nEmail: " ++ params.customerEmail
      ++ "\nQuery Category: "
      ++ (match params.category with
          | some c => if c.isEmpty then "Unknown" else c
          | none => "Unknown")
      ++ "\n\nCustomer Message:\n\"" ++ params.customerQuery ++ "\"\n"
  let p1 :=
    match params.context with
    | some ctx => if ctx.isEmpty then p0 else p0 ++ "\nAdditional Context:\n" ++ ctx ++ "\n"
    | none => p0
  let p2 :=
    if params.orderData.length > 0 then
      p1 ++ "\nCustomer Order Information:\n"
        ++ String.join ((params.orderData.take 3).enum.map fun pr => orderPromptBlock pr.1 pr.2)
    else
      p1 ++ "\nNo order information found for this customer.\n"
  let p3 :=
    if params.similarResponses.length > 0 then
      p2 ++ "\nSimilar Past Responses (for reference):\n"
        ++ String.join ((params.similarResponses.take 3).enum.map fun pr => similarPromptBlock pr.1 pr.2)
    else p2
  p3 ++ "\nInstructions:\n1. Write a helpful, polite, and professional response to the customer\n2. Use the order information to provide specific details when relevant\n3. Reference similar past responses for tone and style, but personalize for this specific situation\n4. If order information is available, include specific tracking details, delivery estimates, etc.\n5. If no order information is found but the customer mentions an order, acknowledge this and offer to help find their order\n6. Keep the response concise but complete (2-4 sentences typically)\n7. End with a helpful next step or offer of additional assistance\n8. Use a warm, human-like tone that reflects our premium eyewear brand\n\nGenerate only the response text (no additional formatting or explanations):"

/-- Leading- and trailing-whitespace removal
(`response.choices[0]?.message?.content?.trim()`). -/
def jsTrim (s : String) : String :=
  ⟨((s.data.dropWhile isSpaceChar).reverse.dropWhile isSpaceChar).reverse⟩

/-- AIResponseService.generateResponse: on a successful provider call, score
the trimmed output and escalate below confidence 0.7; on any thrown provider
error, classify it and return the intelligent fallback — the function is
total and never re-raises. -/
def generateResponse (params : GenerateParams)
    (outcome : Except OpenAIError Completion) : AIGeneratedResponse :=
  match outcome with
  | Except.ok completion =>
    let responseText := jsTrim completion.text
    let confidence := calculateConfidence responseText params.orderData params.similarResponses
    { response := responseText
      confidence := confidence
      reasoning := extractReasoning responseText params.orderData params.similarResponses
      shouldEscalate := decide (confidence < 7/10)
      promptUsed := buildPrompt params
      modelUsed := "gpt-4o"
      tokensUsed := completion.tokensUsed }
  | Except.error e => generateFallbackResponse params (classifyOpenAIError e)

/-- Inbound Gmail message as consumed by `processEmail`. -/
structure GmailEmail where
  id : String
  threadId : String
  subject : String
  fromEmail : String
  fromName : Option String
  body : String
  htmlBody : Option String
  receivedAt : String
deriving DecidableEq, Repr

/-- Persisted conversation row (persistence-relevant fields; row ids are
abstracted to `Nat`). -/
structure ConversationRec where
  id : Nat
  customerEmail : String
  customerName : Option String
  shopifyOrderId : Option String
  status : String
  priority : String
deriving DecidableEq, Repr

/-- Persisted customer-email row, keyed by the Gmail message id. -/
structure CustomerEmailRec where
  id : Nat
  gmailMessageId : String
  threadId : String
  subject : String
  fromEmail : String
  fromName : Option String
  body : String
  htmlBody : Option String
  receivedAt : String
  conversationId : Nat
  processed : Bool
deriving DecidableEq, Repr

/-- Persisted AI-response row.  `shopifyData`/`ragSources` hold the
serialized payload (JSON serialization abstracted to the value itself);
`sentAt` is an abstract timestamp. -/
structure AIResponseRec where
  id : Nat
  responseText : String
  confidence : Rat
  sentViaGmail : Bool
  sentAt : Option String
  humanReviewed : Bool
  escalated : Bool
  conversationId : Nat
  shopifyData : Option (List ShopifyOrder)
  ragSources : Option (List SimilarResponse)
  promptUsed : String
deriving DecidableEq, Repr

/-- Database state: the three tables `processEmail` touches plus the fresh-id
counter. -/
structure DB where
  conversations : List ConversationRec
  customerEmails : List CustomerEmailRec
  aiResponses : List AIResponseRec
  nextId : Nat
deriving DecidableEq, Repr

/-- Outcomes of the external collaborators for one `processEmail` run,
injected as pure data: the OpenAI call outcome, the Shopify lookups (with a
flag for a thrown lookup error, which step 5 swallows), the RAG
classification and similarity search, and whether `gmailService.sendReply`
reports success. -/
structure Env where
  providerOutcome : Except OpenAIError Completion
  shopifyFails : Bool
  shopifyByNumber : String → Option ShopifyOrder
  shopifyByEmail : String → List ShopifyOrder
  ragCategory : String
  similarResponses : List SimilarResponse
  gmailSendOk : Bool

/-- Outbound mailbox calls performed by one `processEmail` run. -/
inductive MailAction where
  | sendReplyTo (recipient subject body threadId : String)
  | createDraftFor (recipient subject body threadId : String)
deriving DecidableEq, Repr

/-- Is the action an automatic send (as opposed to a draft held for
review)? -/
def MailAction.isSend : MailAction → Bool
  | .sendReplyTo _ _ _ _ => true
  | .createDraftFor _ _ _ _ => false

/-- Result record `EmailProcessResult`. -/
structure EmailProcessResult where
  success : Bool
  escalated : Bool
  message : Option String
  error : Option String
  responseId : Option Nat
  confidence : Option Rat
deriving DecidableEq, Repr

/-- Full observable outcome of one `processEmail` run. -/
structure ProcessOutcome where
  result : EmailProcessResult
  db : DB
  actions : List MailAction
deriving DecidableEq, Repr

/-- CustomerSupportService.determinePriority. -/
def determinePriority (category : String) (content : String) : String :=
  let urgentKeywords := ["urgent", "asap", "immediately", "broken", "damaged", "wrong", "missing"]
  let highKeywords := ["return", "refund", "complaint", "problem", "issue"]
  let lowerContent := lowerList content.data
  if urgentKeywords.any (fun keyword => containsSub keyword.data lowerContent) then "URGENT"
  else if category == "PRODUCT_ISSUE" ||
          highKeywords.any (fun keyword => containsSub keyword.data lowerContent) then "HIGH"
  else if category == "RETURN_REFUND" then "HIGH"
  else "NORMAL"

/-- Combined escalation decision of `processEmail` step 10. -/
def escalationDecision (aiResponse : AIGeneratedResponse)
    (validation : ValidationResult) : Bool :=
  aiResponse.shouldEscalate || !validation.isValid || decide (validation.score < 3/5)

/-- Prisma `update` on the `aIResponse` table keyed by (unique) row id. -/
def updateResponseRow (l : List AIResponseRec) (rid : Nat)
    (f : AIResponseRec → AIResponseRec) : List AIResponseRec :=
  l.map fun r => if r.id == rid then f r else r

/-- Prisma `update` on the `conversation` table keyed by (unique) row id. -/
def updateConversationRow (l : List ConversationRec) (cid : Nat)
    (f : ConversationRec → ConversationRec) : List ConversationRec :=
  l.map fun c => if c.id == cid then f c else c

/-- Prisma `update` on the `customerEmail` table keyed by (unique) row id. -/
def updateEmailRow (l : List CustomerEmailRec) (eid : Nat)
    (f : CustomerEmailRec → CustomerEmailRec) : List CustomerEmailRec :=
  l.map fun e => if e.id == eid then f e else e

/-- Result returned by step 1 of `processEmail` when the Gmail message id is
already persisted. -/
def alreadyProcessedResult : EmailProcessResult :=
  { success := true, escalated := false, message := some "Email already processed",
    error := none, responseId := none, confidence := none }

/-- Step 5 of `processEmail`: order data fetched from Shopify, by extracted
order number when present, else by customer email; a thrown lookup error is
swallowed and leaves the list empty. -/
def orderDataFor (env : Env) (email : GmailEmail) : List ShopifyOrder :=
  if env.shopifyFails then []
  else
    match extractOrderNumber email.body with
    | some n => match env.shopifyByNumber n with | some o => [o] | none => []
    | none => env.shopifyByEmail email.fromEmail

/-- Step 8 of `processEmail`: the generation-orchestrator call with the
pipeline's parameters. -/
def aiResponseFor (env : Env) (email : GmailEmail) : AIGeneratedResponse :=
  generateResponse
    { customerQuery := email.body, customerEmail := email.fromEmail,
      customerName := email.fromName, orderData := orderDataFor env email,
      similarResponses := env.similarResponses, category := some env.ragCategory,
      context := some ("Subject: " ++ email.subject) }
    env.providerOutcome

/-- Steps 9–10 of `processEmail`: the combined escalation decision on the
generated response and its validation. -/
def escalateFor (env : Env) (email : GmailEmail) : Bool :=
  escalationDecision (aiResponseFor env email)
    (validateResponse (aiResponseFor env email).response)

/-- Step 11 of `processEmail`: the text persisted/sent together with the
`isIntelligentFallback` flag — escalations swap in the intelligent fallback
(error type "escalation") and set the flag. -/
def finalPairFor (env : Env) (email : GmailEmail) : String × Bool :=
  if escalateFor env email then
    let intelligentFallback :=
      generateFallbackResponse
        { customerQuery := email.body, customerEmail := email.fromEmail,
          customerName := email.fromName, orderData := orderDataFor env email,
          similarResponses := env.similarResponses, category := some env.ragCategory,
          context := none }
        "escalation"
    (intelligentFallback.response, true)
  else ((aiResponseFor env email).response, false)

/-- CustomerSupportService.processEmail, steps 1–14, with the external
collaborators injected through `env` and the per-step computations named
above.  Thrown Shopify lookup errors are swallowed in step 5
(`shopifyFails`); the unused `extractQueryInfo` call of step 6 is omitted;
`markAsRead` happens in the caller's loop and is not part of this function in
the source either.  Each intermediate database state updates exactly the
table the corresponding prisma call touches. -/
def processEmail (env : Env) (db : DB) (email : GmailEmail) : ProcessOutcome :=
  -- 1. Check if email already exists in database
  match db.customerEmails.find? (fun r => r.gmailMessageId == email.id) with
  | some _ => { result := alreadyProcessedResult, db := db, actions := [] }
  | none =>
    -- 2. Find or create conversation
    let found := db.conversations.find? (fun c => c.customerEmail == email.fromEmail)
    let conversation : ConversationRec :=
      match found with
      | some c => c
      | none =>
        { id := db.nextId, customerEmail := email.fromEmail, customerName := email.fromName,
          shopifyOrderId := none, status := "ACTIVE", priority := "NORMAL" }
    let db1 : DB :=
      { db with
          conversations :=
            (match found with
             | some _ => db.conversations
             | none => db.conversations ++ [conversation]),
          nextId :=
            (match found with
             | some _ => db.nextId
             | none => db.nextId + 1) }
    -- 3. Save email to database
    let savedEmail : CustomerEmailRec :=
      { id := db1.nextId, gmailMessageId := email.id, threadId := email.threadId,
        subject := email.subject, fromEmail := email.fromEmail, fromName := email.fromName,
        body := email.body, htmlBody := email.htmlBody, receivedAt := email.receivedAt,
        conversationId := conversation.id, processed := false }
    let db2 : DB := { db1 with customerEmails := db1.customerEmails ++ [savedEmail],
                               nextId := db1.nextId + 1 }
    -- 4. Extract order number if mentioned
    let orderNumber := extractOrderNumber email.body
    let db3 : DB :=
      { db2 with
          conversations :=
            (match orderNumber, conversation.shopifyOrderId with
             | some n, none =>
               updateConversationRow db2.conversations conversation.id
                 (fun c => { c with shopifyOrderId := some n })
             | _, _ => db2.conversations) }
    -- 5. Get order data from Shopify (lookup errors swallowed)
    let orderData := orderDataFor env email
    -- 6. Classify query  /  7. Search for similar responses
    let category := env.ragCategory
    let similarResponses := env.similarResponses
    -- 8. Generate AI response
    let aiResponse := aiResponseFor env email
    -- 9. Validate response quality  /  10. Combined escalation decision
    let shouldEscalate := escalateFor env email
    -- 11. Save AI response  (escalations swap in the intelligent fallback)
    let finalPair := finalPairFor env email
    let isIntelligentFallback := finalPair.2
    let savedResponse : AIResponseRec :=
      { id := db3.nextId, responseText := finalPair.1, confidence := aiResponse.confidence,
        sentViaGmail := false, sentAt := none, humanReviewed := shouldEscalate,
        escalated := shouldEscalate, conversationId := conversation.id,
        shopifyData := if orderData.length > 0 then some orderData else none,
        ragSources := if similarResponses.length > 0 then some similarResponses else none,
        promptUsed := aiResponse.promptUsed }
    let db4 : DB := { db3 with aiResponses := db3.aiResponses ++ [savedResponse],
                               nextId := db3.nextId + 1 }
    -- 12. Send response via Gmail (or create draft if escalated); the row is
    -- marked sent only when the attempted send reports success
    let shouldSendDirectly := !shouldEscalate || isIntelligentFallback
    let db5 : DB :=
      { db4 with
          aiResponses :=
            (if shouldSendDirectly && env.gmailSendOk then
               updateResponseRow db4.aiResponses savedResponse.id
                 (fun r => { r with sentViaGmail := true, sentAt := some "now" })
             else db4.aiResponses) }
    let actionsOut : List MailAction :=
      if shouldSendDirectly then
        [MailAction.sendReplyTo email.fromEmail ("Re: " ++ email.subject)
          savedResponse.responseText email.threadId]
      else
        [MailAction.createDraftFor email.fromEmail ("Re: " ++ email.subject)
          savedResponse.responseText email.threadId]
    -- 13. Update conversation status
    let db6 : DB :=
      { db5 with
          conversations :=
            (updateConversationRow db5.conversations conversation.id
              (fun c => { c with status := (if shouldEscalate then "ESCALATED" else "ACTIVE"),
                                 priority := determinePriority category email.body })) }
    -- 14. Mark email as processed
    let db7 : DB :=
      { db6 with
          customerEmails :=
            (updateEmailRow db6.customerEmails savedEmail.id
              (fun e => { e with processed := true })) }
    { result :=
        ({ success := true, escalated := shouldEscalate,
           message := some (if shouldEscalate then "Email escalated for human review"
                            else "Automated response sent successfully"),
           error := none, responseId := some savedResponse.id,
           confidence := some aiResponse.confidence })
      db := db7
      actions := actionsOut }

/-- Collaborator environment whose provider call fails with a 429 rate
limit. -/
def envRate : Env :=
  { providerOutcome := Except.error { status := some 429, code := none },
    shopifyFails := false,
    shopifyByNumber := fun _ => none,
    shopifyByEmail := fun _ => [],
    ragCategory := "OTHER",
    similarResponses := [],
    gmailSendOk := true }

/-- Empty database. -/
def dbEmpty : DB :=
  { conversations := [], customerEmails := [], aiResponses := [], nextId := 0 }

/-- Concrete inbound email. -/
def emailW : GmailEmail :=
  { id := "m1", threadId := "t1", subject := "Where is my package",
    fromEmail := "jo@example.com", fromName := some "Jo",
    body := "Where is my package", htmlBody := none, receivedAt := "2024-01-01" }

/-- Concrete shipped order. -/
def orderW : ShopifyOrder :=
  { orderNumber := "1001", processedAt := "2024-01-02", fulfillmentStatus := "shipped",
    financialStatus := "paid", totalPrice := "120.00",
    shippingAddress := { city := "Delhi", province := "DL", country := "IN" },
    items := [{ title := "Blue Light Glasses", quantity := 1, variantTitle := "",
                sku := "BL1", price := "120.00" }],
    fulfillments := [] }

/-- Collaborator environment with a successful provider completion and one
order on file. -/
def envOk : Env :=
  { providerOutcome := Except.ok
      { text := "Thank you for your patience! Your order was shipped yesterday and the tracking number will arrive by email soon.",
        tokensUsed := 42 },
    shopifyFails := false,
    shopifyByNumber := fun _ => none,
    shopifyByEmail := fun _ => [orderW],
    ragCategory := "ORDER_STATUS",
    similarResponses := [],
    gmailSendOk := true }

/-- The reply row persisted by the concrete successful run. -/
def rW : AIResponseRec :=
  ((processEmail envOk dbEmpty emailW).db.aiResponses).headD
    { id := 0, responseText := "", confidence := 0, sentViaGmail := false, sentAt := none,
      humanReviewed := false, escalated := true, conversationId := 0, shopifyData := none,
      ragSources := none, promptUsed := "" }

/-- Concrete 200-character reply text containing the placeholder marker
`[TRACKING]`. -/
def sampleTracking200 : String :=
  "We have received your inquiry about the shipment. Your tracking details are shown as [TRACKING] in our system and we will confirm the exact delivery date shortly. Thank you for shopping with us today."

/-- Concrete fallback parameters carrying a refund query. -/
def paramsRefund : GenerateParams :=
  { customerQuery := "I want a refund", customerEmail := "jo@example.com",
    customerName := none, orderData := [], similarResponses := [],
    category := none, context := none }

/-- Four consecutive ASCII digits occur somewhere in the text. -/
def hasFourConsecDigits : List Char → Bool
  | a :: rest =>
    (isDigitChar a &&
      (match rest with
       | b :: c :: d :: _ => isDigitChar b && isDigitChar c && isDigitChar d
       | _ => false)) || hasFourConsecDigits rest
  | [] => false

/-- C2: the pipeline always answers by `sendReply`; the draft-for-review
branch is unreachable because an escalated run swaps in the intelligent
fallback and sets `isIntelligentFallback`, making
`shouldSendDirectly = !shouldEscalate || isIntelligentFallback` true on every
path — on a fresh message exactly one send action is emitted, and no run ever
emits a draft action. -/
theorem processEmail_never_drafts :
    ∀ (env : Env) (db : DB) (email : GmailEmail),
      (processEmail env db email).actions.all MailAction.isSend = true ∧
      (db.customerEmails.find? (fun r => r.gmailMessageId == email.id) = none →
        ∃ body, (processEmail env db email).actions =
          [MailAction.sendReplyTo email.fromEmail ("Re: " ++ email.subject) body
            email.threadId]) := by
  intro env db email
  have hcond : (!escalateFor env email || (finalPairFor env email).2) = true := by
    cases hesc : escalateFor env email
    · simp
    · simp [finalPairFor, hesc]
  cases hfind : db.customerEmails.find? (fun r => r.gmailMessageId == email.id) with
  | some r =>
    refine ⟨?_, fun hnone => by simp at hnone⟩
    unfold processEmail
    rw [hfind]
    rfl
  | none =>
    have hsend : ∃ body, (processEmail env db email).actions =
        [MailAction.sendReplyTo email.fromEmail ("Re: " ++ email.subject) body
          email.threadId] := by
      unfold processEmail
      rw [hfind]
      dsimp only
      rw [hcond]
      simp only [if_true]
      exact ⟨_, rfl⟩
    obtain ⟨body, hb⟩ := hsend
    refine ⟨?_, fun _ => ⟨body, hb⟩⟩
    rw [hb]
    rfl

/-- Witness for C2: the concrete fresh run emits exactly one send action. -/
theorem processEmail_never_drafts_witness :
    ∃ body, (processEmail envRate dbEmpty emailW).actions =
      [MailAction.sendReplyTo emailW.fromEmail ("Re: " ++ emailW.subject) body
        emailW.threadId] :=
  (processEmail_never_drafts envRate dbEmpty emailW).2 rfl

/-- Step 1 of the pipeline: a message id that is already persisted
short-circuits the run with no writes, no mail calls, and the
already-processed result. -/
theorem processEmail_already (env : Env) (db : DB) (email : GmailEmail)
    (h : ∃ r ∈ db.customerEmails, r.gmailMessageId = email.id) :
    processEmail env db email =
      { result := alreadyProcessedResult, db := db, actions := [] } := by
  have hsome : (db.customerEmails.find? (fun r => r.gmailMessageId == email.id)).isSome := by
    rw [List.find?_isSome]
    obtain ⟨r, hr, he⟩ := h
    exact ⟨r, hr, by simp [he]⟩
  obtain ⟨r, hr⟩ := Option.isSome_iff_exists.mp hsome
  unfold processEmail
  rw [hr]

/-- The row appended by step 3 survives the step-14 `processed := true`
update with its Gmail message id intact. -/
theorem mem_updateEmailRow_self (l : List CustomerEmailRec) (s : CustomerEmailRec) (sid : Nat) :
    ∃ r ∈ updateEmailRow (l ++ [s]) sid (fun e => { e with processed := true }),
      r.gmailMessageId = s.gmailMessageId := by
  refine ⟨if s.id == sid then { s with processed := true } else s, ?_, ?_⟩
  · exact List.mem_map_of_mem _ (List.mem_append_right _ (List.mem_singleton_self s))
  · split <;> rfl

/-- C9: processing is idempotent on the Gmail message id — with the id
already persisted the pipeline performs no writes, emits no mail calls, and
reports "Email already processed"; and after a fresh run (which persists
exactly one new reply) a second run of the same message is exactly such a
no-op. -/
theorem processEmail_idempotent :
    ∀ (env1 env2 : Env) (db : DB) (email : GmailEmail),
      ((∃ r ∈ db.customerEmails, r.gmailMessageId = email.id) →
        processEmail env1 db email =
          { result := alreadyProcessedResult, db := db, actions := [] }) ∧
      (db.customerEmails.find? (fun r => r.gmailMessageId == email.id) = none →
        processEmail env2 (processEmail env1 db email).db email =
          { result := alreadyProcessedResult,
            db := (processEmail env1 db email).db, actions := [] } ∧
        (processEmail env1 db email).db.aiResponses.length =
          db.aiResponses.length + 1) := by
  intro env1 env2 db email
  refine ⟨processEmail_already env1 db email, fun hfind => ?_⟩
  constructor
  · apply processEmail_already
    unfold processEmail
    rw [hfind]
    dsimp only
    exact mem_updateEmailRow_self _ _ _
  · unfold processEmail
    rw [hfind]
    dsimp only
    split
    · simp [updateResponseRow]
    · simp

/-- Witness for C9: on the concrete fresh run one reply is persisted and a
second run of the same message id is a no-op reporting already-processed. -/
theorem processEmail_idempotent_witness :
    processEmail envRate (processEmail envRate dbEmpty emailW).db emailW =
      { result := alreadyProcessedResult,
        db := (processEmail envRate dbEmpty emailW).db, actions := [] } ∧
    (processEmail envRate dbEmpty emailW).db.aiResponses.length =
      dbEmpty.aiResponses.length + 1 :=
  (processEmail_idempotent envRate envRate dbEmpty emailW).2 rfl

/-- On either generation path, a non-escalating reply carries confidence at
least 0.7: the success path escalates exactly below 0.7, and the fallback path
escalates at `requiresEscalation OR confidence < 0.7`. -/
theorem generateResponse_confidence_of_not_escalate :
    ∀ (params : GenerateParams) (outcome : Except OpenAIError Completion),
      (generateResponse params outcome).shouldEscalate = false →
      7/10 ≤ (generateResponse params outcome).confidence := by
  intro params outcome h
  cases outcome with
  | ok c =>
    have hrfl : (generateResponse params (Except.ok c)).shouldEscalate =
        decide ((generateResponse params (Except.ok c)).confidence < 7/10) := rfl
    rw [hrfl] at h
    exact le_of_not_lt (of_decide_eq_false h)
  | error e =>
    have hrfl : (generateResponse params (Except.error e)).shouldEscalate =
        ((analyzeCustomerQuery params.customerQuery).requiresEscalation ||
          decide ((generateResponse params (Except.error e)).confidence < 7/10)) := rfl
    rw [hrfl] at h
    exact le_of_not_lt (of_decide_eq_false (Bool.or_eq_false_iff.mp h).2)

/-- Only the freshly inserted response row (whose id is fresh by the
well-formedness hypothesis) is touched by the step-12 sent-flag update. -/
theorem mem_fresh_response (old : List AIResponseRec) (s : AIResponseRec) (r : AIResponseRec)
    (hwfK : ∀ x ∈ old, x.id ≠ s.id)
    (hmem : r ∈ updateResponseRow (old ++ [s]) s.id
      (fun x => { x with sentViaGmail := true, sentAt := some "now" }))
    (hnew : r ∉ old) :
    r = { s with sentViaGmail := true, sentAt := some "now" } := by
  unfold updateResponseRow at hmem
  rw [List.map_append] at hmem
  rcases List.mem_append.mp hmem with hOld | hNew
  · obtain ⟨x, hx, hgx⟩ := List.mem_map.mp hOld
    have hxid : (x.id == s.id) = false := by
      simp only [beq_eq_false_iff_ne]
      exact hwfK x hx
    simp only [hxid, Bool.false_eq_true, if_false] at hgx
    rw [← hgx] at hnew
    exact absurd hx hnew
  · simp only [List.map_cons, List.map_nil, List.mem_singleton] at hNew
    rw [hNew, if_pos]
    simp

/-- When the combined decision does not escalate, the persisted text is the
generated response, it passed validation with score at least 0.6, and the
generated confidence is at least 0.7. -/
theorem validated_of_flags (env : Env) (email : GmailEmail)
    (h : escalateFor env email = false) :
    (validateResponse (finalPairFor env email).1).isValid = true ∧
    3/5 ≤ (validateResponse (finalPairFor env email).1).score ∧
    7/10 ≤ (aiResponseFor env email).confidence := by
  have hnc : ¬ (escalateFor env email = true) := by simp [h]
  have hfp : finalPairFor env email = ((aiResponseFor env email).response, false) := by
    unfold finalPairFor
    rw [if_neg hnc]
  unfold escalateFor escalationDecision at h
  obtain ⟨hab, hc⟩ := Bool.or_eq_false_iff.mp h
  obtain ⟨ha, hb⟩ := Bool.or_eq_false_iff.mp hab
  have hvalid : (validateResponse (aiResponseFor env email).response).isValid = true := by
    simpa using hb
  have hscore : 3/5 ≤ (validateResponse (aiResponseFor env email).response).score :=
    le_of_not_lt (of_decide_eq_false hc)
  have hconf : 7/10 ≤ (aiResponseFor env email).confidence :=
    generateResponse_confidence_of_not_escalate _ _ ha
  rw [hfp]
  exact ⟨hvalid, hscore, hconf⟩

/-- C3: a persisted reply whose recorded `escalated` flag is false passed
validation (`isValid` with score at least 0.6) and carried confidence at
least 0.7, on the generative and the fallback path alike (the id-freshness
hypothesis states that the prisma row ids already present are below the
fresh-id counter). -/
theorem escalate_false_implies_validated :
    ∀ (env : Env) (db : DB) (email : GmailEmail) (r : AIResponseRec),
      (∀ x ∈ db.aiResponses, x.id < db.nextId) →
      r ∈ (processEmail env db email).db.aiResponses →
      r ∉ db.aiResponses →
      r.escalated = false →
      (validateResponse r.responseText).isValid = true ∧
      3/5 ≤ (validateResponse r.responseText).score ∧
      7/10 ≤ r.confidence := by
  intro env db email r hwf hmem hnew hesc
  cases hfind : db.customerEmails.find? (fun x => x.gmailMessageId == email.id) with
  | some x =>
    unfold processEmail at hmem
    rw [hfind] at hmem
    dsimp only at hmem
    exact absurd hmem hnew
  | none =>
    unfold processEmail at hmem
    rw [hfind] at hmem
    dsimp only at hmem
    split at hmem
    · cases hfound : db.conversations.find? (fun c => c.customerEmail == email.fromEmail) with
      | some cv =>
        rw [hfound] at hmem
        dsimp only at hmem
        have hr := mem_fresh_response db.aiResponses _ r
          (fun x hx => by have := hwf x hx; dsimp only; omega) hmem hnew
        rw [hr] at hesc ⊢
        dsimp only at hesc ⊢
        exact validated_of_flags env email hesc
      | none =>
        rw [hfound] at hmem
        dsimp only at hmem
        have hr := mem_fresh_response db.aiResponses _ r
          (fun x hx => by have := hwf x hx; dsimp only; omega) hmem hnew
        rw [hr] at hesc ⊢
        dsimp only at hesc ⊢
        exact validated_of_flags env email hesc
    · rcases List.mem_append.mp hmem with hOld | hNew
      · exact absurd hOld hnew
      · have hr := List.mem_singleton.mp hNew
        rw [hr] at hesc ⊢
        dsimp only at hesc ⊢
        exact validated_of_flags env email hesc

set_option maxRecDepth 8000 in
unseal Rat.add Rat.mul Rat.inv Rat.sub Nat.gcd in
/-- Witness for C3: the concrete non-escalated persisted reply passed
validation and carries confidence at least 0.7. -/
theorem escalate_false_witness :
    (validateResponse rW.responseText).isValid = true ∧
    3/5 ≤ (validateResponse rW.responseText).score ∧
    7/10 ≤ rW.confidence :=
  escalate_false_implies_validated envOk dbEmpty emailW rW
    (fun x hx => absurd hx (List.not_mem_nil x))
    (by rw [show (processEmail envOk dbEmpty emailW).db.aiResponses = [rW] from rfl]
        exact List.mem_singleton_self rW)
    (List.not_mem_nil rW)
    (by rfl)

/-- The validator's warning list has at most three entries (one per warning
check). -/
theorem validateResponse_warnings_le_three (response : String) :
    (validateResponse response).warnings.length ≤ 3 := by
  unfold validateResponse
  dsimp only
  split <;> split <;> split <;> simp

/-- The validator's issue list is empty exactly when neither hard check
fires. -/
theorem validateResponse_issues_empty (response : String) :
    (validateResponse response).issues = [] ↔
      ¬ (response.length < 30 ∨ placeholderHit response = true) := by
  unfold validateResponse
  dsimp only
  constructor
  · intro h
    rcases Nat.lt_or_ge response.length 30 with hlt | hge
    · simp [hlt] at h
    · intro hcon
      rcases hcon with hcon | hcon
      · omega
      · simp [hcon] at h
  · intro h
    push_neg at h
    have h2 : placeholderHit response = false := Bool.not_eq_true _ |>.mp h.2
    simp [Nat.not_lt.mpr h.1, h2]

/-- C5: the Confidence Scorer starts at 0.5, adds 0.3 for order data, adds
mean evidence similarity × 0.2, subtracts 0.2 for short text and 0.3 for
placeholder markers, adds 0.1 for tracking/order/delivery/shipping details,
and clamps, so the returned confidence lies in [0,1] for every response
text, order-data list and evidence list (including the empty string and
texts triggering every penalty). -/
theorem calculateConfidence_bounded :
    ∀ (response : String) (orderData : List ShopifyOrder)
      (similarResponses : List SimilarResponse),
      0 ≤ calculateConfidence response orderData similarResponses ∧
      calculateConfidence response orderData similarResponses ≤ 1 := by
  intro response orderData similarResponses
  unfold calculateConfidence
  exact ⟨le_max_left _ _, max_le (by norm_num) (min_le_left _ _)⟩

/-- C10: a response that the validator marks valid has score at least 0.7
(with no issues at most the three warning deductions of 0.1 apply), so in
the pipeline's combined escalation decision the `score < 0.6` disjunct is
redundant: the decision always equals `shouldEscalate OR not isValid`. -/
theorem valid_score_ge_and_redundant_disjunct :
    ∀ response : String,
      ((validateResponse response).isValid = true →
        7/10 ≤ (validateResponse response).score) ∧
      (∀ a : AIGeneratedResponse,
        escalationDecision a (validateResponse response) =
          (a.shouldEscalate || !(validateResponse response).isValid)) := by
  intro response
  have hscore : (validateResponse response).score =
      max 0 (1 - ((validateResponse response).issues.length : Rat) * (3/10)
               - ((validateResponse response).warnings.length : Rat) * (1/10)) := rfl
  have hvalid : (validateResponse response).isValid =
      ((validateResponse response).issues.length == 0) := rfl
  have hmain : (validateResponse response).isValid = true →
      7/10 ≤ (validateResponse response).score := by
    intro h
    rw [hvalid] at h
    have hzero : (validateResponse response).issues.length = 0 := by
      simpa using h
    have hw : ((validateResponse response).warnings.length : Rat) ≤ 3 := by
      exact_mod_cast validateResponse_warnings_le_three response
    rw [hscore, hzero]
    refine le_max_of_le_right ?_
    push_cast
    linarith
  refine ⟨hmain, fun a => ?_⟩
  by_cases hv : (validateResponse response).isValid = true
  · have hs := hmain hv
    have hlt : ¬ ((validateResponse response).score < 3/5) := by
      intro hcon
      have : (7 : Rat)/10 < 3/5 := lt_of_le_of_lt hs hcon
      norm_num at this
    simp [escalationDecision, hv, hlt]
  · have hv' : (validateResponse response).isValid = false := by
      revert hv; cases (validateResponse response).isValid <;> simp
    simp [escalationDecision, hv']

set_option maxRecDepth 4000 in
/-- C8: the validator fails a text exactly when a hard issue is present
(length below 30 characters or a placeholder marker), warnings never flip
`isValid` on their own, the score is `max(0, 1 − 0.3·issues − 0.1·warnings)`,
and in particular a 20-character placeholder-free text and a 200-character
text containing `[TRACKING]` are both invalid. -/
theorem validateResponse_exactness :
    (∀ response : String,
      ((validateResponse response).isValid = false ↔
        (response.length < 30 ∨ placeholderHit response = true)) ∧
      (validateResponse response).score =
        max 0 (1 - ((validateResponse response).issues.length : Rat) * (3/10)
                 - ((validateResponse response).warnings.length : Rat) * (1/10))) ∧
    ("Thanks for the order".length = 20 ∧
      placeholderHit "Thanks for the order" = false ∧
      (validateResponse "Thanks for the order").isValid = false) ∧
    (sampleTracking200.length = 200 ∧
      containsSub "[TRACKING]".data sampleTracking200.data = true ∧
      (validateResponse sampleTracking200).isValid = false) := by
  have key : ∀ response : String,
      ((validateResponse response).isValid = false ↔
        (response.length < 30 ∨ placeholderHit response = true)) := by
    intro response
    have hvalid : (validateResponse response).isValid =
        ((validateResponse response).issues.length == 0) := rfl
    constructor
    · intro h
      by_contra hcon
      have hempty := (validateResponse_issues_empty response).mpr hcon
      rw [hvalid, hempty] at h
      simp at h
    · intro h
      cases hiv : (validateResponse response).isValid with
      | false => rfl
      | true =>
        exfalso
        rw [hvalid] at hiv
        have hlen : (validateResponse response).issues.length = 0 := by simpa using hiv
        have hnil : (validateResponse response).issues = [] := List.length_eq_zero.mp hlen
        exact ((validateResponse_issues_empty response).mp hnil) h
  exact ⟨fun response => ⟨key response, rfl⟩, ⟨by decide, by decide, by decide⟩,
    ⟨by decide, by decide, by decide⟩⟩

/-- Witness for C10: a concrete valid response, with the score bound obtained
from the theorem. -/
theorem valid_score_witness :
    (validateResponse "Thank you for reaching out to us today friend").isValid = true ∧
    7/10 ≤ (validateResponse "Thank you for reaching out to us today friend").score :=
  ⟨by decide,
   (valid_score_ge_and_redundant_disjunct "Thank you for reaching out to us today friend").1
     (by decide)⟩

/-- C1: on every provider failure — whatever status/code the thrown error
carries, covering rate-limit/quota, authentication, service-unavailable,
malformed-request, context-too-long, network-unreachable and unknown —
`generateResponse` returns the complete intelligent-fallback reply for the
classified failure class and never propagates the error: the classification
itself is total over the seven-class taxonomy. -/
theorem generateResponse_total_on_failure :
    ∀ (params : GenerateParams) (e : OpenAIError),
      generateResponse params (Except.error e) =
        generateFallbackResponse params (classifyOpenAIError e) ∧
      (generateResponse params (Except.error e)).modelUsed = "intelligent_fallback" ∧
      (generateResponse params (Except.error e)).tokensUsed = 0 ∧
      classifyOpenAIError e ∈
        ["rate_limit", "auth_error", "service_unavailable", "invalid_request",
         "context_too_long", "network_error", "unknown_error"] := by
  intro params e
  refine ⟨rfl, rfl, rfl, ?_⟩
  unfold classifyOpenAIError
  split_ifs <;> simp

/-- Whenever the classifier's final intent is the return/refund or the
complaint intent, the branch that chose it also set `requiresEscalation` (and
no later branch resets it). -/
theorem analyze_refund_complaint_escalates (q : String) :
    ((analyzeCustomerQuery q).intent = "return_refund" ∨
     (analyzeCustomerQuery q).intent = "complaint_issue") →
    (analyzeCustomerQuery q).requiresEscalation = true := by
  unfold analyzeCustomerQuery
  dsimp only
  by_cases h1 : hasAnyWord (lowerList q.data) statusWords = true <;>
  by_cases h2 : hasAnyWord (lowerList q.data) trackWords = true <;>
  by_cases h3 : hasAnyWord (lowerList q.data) returnWords = true <;>
  by_cases h4 : hasAnyWord (lowerList q.data) productWords = true <;>
  by_cases h5 : hasAnyWord (lowerList q.data) complaintWords = true <;>
  by_cases h6 : hasAnyWord (lowerList q.data) urgencyWords = true <;>
  simp [h1, h2, h3, h4, h5, h6]

/-- C4: for every provider failure class (any `errorType` string reaching the
fallback), the fallback classifies the query, assigns the strategy-specific
base confidence (order_status and shipping_tracking 0.75, return_refund 0.70,
product_inquiry 0.65, complaint_issue 0.80, general_inquiry 0.60), sets
`shouldEscalate` to the classifier's `requiresEscalation` OR confidence below
0.7, marks the reply as fallback-sourced, and consequently always escalates
when the classified intent is return_refund or complaint_issue. -/
theorem fallback_strategy_confidence :
    ∀ (params : GenerateParams) (errorType : String),
      (generateFallbackResponse params errorType).modelUsed = "intelligent_fallback" ∧
      (generateFallbackResponse params errorType).shouldEscalate =
        ((analyzeCustomerQuery params.customerQuery).requiresEscalation ||
          decide ((generateFallbackResponse params errorType).confidence < 7/10)) ∧
      ((analyzeCustomerQuery params.customerQuery).intent = "order_status" →
        (generateFallbackResponse params errorType).confidence = 3/4) ∧
      ((analyzeCustomerQuery params.customerQuery).intent = "shipping_tracking" →
        (generateFallbackResponse params errorType).confidence = 3/4) ∧
      ((analyzeCustomerQuery params.customerQuery).intent = "return_refund" →
        (generateFallbackResponse params errorType).confidence = 7/10) ∧
      ((analyzeCustomerQuery params.customerQuery).intent = "product_inquiry" →
        (generateFallbackResponse params errorType).confidence = 13/20) ∧
      ((analyzeCustomerQuery params.customerQuery).intent = "complaint_issue" →
        (generateFallbackResponse params errorType).confidence = 4/5) ∧
      ((analyzeCustomerQuery params.customerQuery).intent = "general_inquiry" →
        (generateFallbackResponse params errorType).confidence = 3/5) ∧
      (((analyzeCustomerQuery params.customerQuery).intent = "return_refund" ∨
        (analyzeCustomerQuery params.customerQuery).intent = "complaint_issue") →
        (generateFallbackResponse params errorType).shouldEscalate = true) := by
  intro params errorType
  have hesc : (generateFallbackResponse params errorType).shouldEscalate =
      ((analyzeCustomerQuery params.customerQuery).requiresEscalation ||
        decide ((generateFallbackResponse params errorType).confidence < 7/10)) := rfl
  refine ⟨rfl, hesc, ?_, ?_, ?_, ?_, ?_, ?_, ?_⟩
  · intro h; simp [generateFallbackResponse, h]
  · intro h; simp [generateFallbackResponse, h]
  · intro h; simp [generateFallbackResponse, h]
  · intro h; simp [generateFallbackResponse, h]
  · intro h; simp [generateFallbackResponse, h]
  · intro h; simp [generateFallbackResponse, h]
  · intro h
    have hreq := analyze_refund_complaint_escalates params.customerQuery h
    rw [hesc, hreq, Bool.true_or]

/-- Witness for C4: on the refund query the fallback assigns base confidence
0.70 and escalates. -/
theorem fallback_strategy_witness :
    (generateFallbackResponse paramsRefund "rate_limit").confidence = 7/10 ∧
    (generateFallbackResponse paramsRefund "rate_limit").shouldEscalate = true :=
  ⟨(fallback_strategy_confidence paramsRefund "rate_limit").2.2.2.2.1 (by decide),
   (fallback_strategy_confidence paramsRefund "rate_limit").2.2.2.2.2.2.2.2 (Or.inl (by decide))⟩

/-- C6: a query matching both the shipping/status lexicon and the complaint
lexicon is classified as complaint_issue with high urgency and escalation
(the complaint branch runs later and overrides the status intent), and
independently any query matching the urgency lexicon gets high urgency and
escalation regardless of intent. -/
theorem complaint_overrides_and_urgency :
    ∀ q : String,
      (hasAnyWord (lowerList q.data) statusWords = true →
       hasAnyWord (lowerList q.data) complaintWords = true →
         (analyzeCustomerQuery q).intent = "complaint_issue" ∧
         (analyzeCustomerQuery q).urgency = "high" ∧
         (analyzeCustomerQuery q).requiresEscalation = true) ∧
      (hasAnyWord (lowerList q.data) urgencyWords = true →
         (analyzeCustomerQuery q).urgency = "high" ∧
         (analyzeCustomerQuery q).requiresEscalation = true) := by
  intro q
  constructor
  · intro hs hc
    unfold analyzeCustomerQuery
    dsimp only
    by_cases h2 : hasAnyWord (lowerList q.data) trackWords = true <;>
    by_cases h3 : hasAnyWord (lowerList q.data) returnWords = true <;>
    by_cases h4 : hasAnyWord (lowerList q.data) productWords = true <;>
    by_cases h6 : hasAnyWord (lowerList q.data) urgencyWords = true <;>
    simp [hs, hc, h2, h3, h4, h6]
  · intro hu
    unfold analyzeCustomerQuery
    dsimp only
    by_cases h1 : hasAnyWord (lowerList q.data) statusWords = true <;>
    by_cases h2 : hasAnyWord (lowerList q.data) trackWords = true <;>
    by_cases h3 : hasAnyWord (lowerList q.data) returnWords = true <;>
    by_cases h4 : hasAnyWord (lowerList q.data) productWords = true <;>
    by_cases h5 : hasAnyWord (lowerList q.data) complaintWords = true <;>
    simp [hu, h1, h2, h3, h4, h5]

/-- Witness for C6: the mixed shipping/complaint text classifies as a
complaint, and an urgent text forces high urgency. -/
theorem complaint_overrides_witness :
    ((analyzeCustomerQuery "My order shipped but I am disappointed").intent = "complaint_issue" ∧
     (analyzeCustomerQuery "My order shipped but I am disappointed").urgency = "high" ∧
     (analyzeCustomerQuery "My order shipped but I am disappointed").requiresEscalation = true) ∧
    ((analyzeCustomerQuery "Please respond asap to my question").urgency = "high" ∧
     (analyzeCustomerQuery "Please respond asap to my question").requiresEscalation = true) :=
  ⟨(complaint_overrides_and_urgency "My order shipped but I am disappointed").1
     (by decide) (by decide),
   (complaint_overrides_and_urgency "Please respond asap to my question").2 (by decide)⟩

/-- The greedy digit run is no longer than the text. -/
theorem takeDigits_length_le : ∀ t : List Char, (takeDigits t).length ≤ t.length := by
  intro t
  induction t with
  | nil => simp [takeDigits]
  | cons c rest ih =>
    unfold takeDigits
    split
    · simpa using ih
    · simp

/-- A greedy digit run of length at least 4 yields four consecutive digits. -/
theorem takeDigits_four : ∀ t : List Char,
    4 ≤ (takeDigits t).length → hasFourConsecDigits t = true := by
  intro t h
  match t with
  | [] => simp [takeDigits] at h
  | [a] =>
    have := takeDigits_length_le [a]
    simp at this
    omega
  | [a, b] =>
    have := takeDigits_length_le [a, b]
    simp at this
    omega
  | [a, b, c] =>
    have := takeDigits_length_le [a, b, c]
    simp at this
    omega
  | a :: b :: c :: d :: rest =>
    by_cases ha : isDigitChar a = true
    · by_cases hb : isDigitChar b = true
      · by_cases hc : isDigitChar c = true
        · by_cases hd : isDigitChar d = true
          · simp [hasFourConsecDigits, ha, hb, hc, hd]
          · simp [takeDigits, ha, hb, hc, hd] at h
        · simp [takeDigits, ha, hb, hc] at h
      · simp [takeDigits, ha, hb] at h
    · simp [takeDigits, ha] at h

/-- Without four consecutive digits the `\b(\d{4,})\b` scan fails. -/
theorem fourDigitRunScan_none : ∀ (t : List Char) (pre : Option Char),
    hasFourConsecDigits t = false → fourDigitRunScan pre t = none := by
  intro t
  induction t with
  | nil => intro pre _; rfl
  | cons c rest ih =>
    intro pre h
    have hrest : hasFourConsecDigits rest = false := by
      unfold hasFourConsecDigits at h
      exact (Bool.or_eq_false_iff.mp h).2
    have hnotrun : ¬ (4 ≤ (takeDigits (c :: rest)).length) := by
      intro hx
      rw [takeDigits_four (c :: rest) hx] at h
      cases h
    unfold fourDigitRunScan
    dsimp only
    split
    · rw [if_neg]
      · exact ih (some c) hrest
      · intro hcon
        exact hnotrun (of_decide_eq_true (Bool.and_elim_left hcon))
    · exact ih (some c) hrest

/-- Without a `#` character the `/#(\d+)/` scan fails. -/
theorem hashDigitsScan_none : ∀ t : List Char, '#' ∉ t → hashDigitsScan t = none := by
  intro t
  induction t with
  | nil => intro _; rfl
  | cons c rest ih =>
    intro h
    have hc : (c == '#') = false := by
      simp only [beq_eq_false_iff_ne, ne_eq]
      exact fun hx => h (by simp [hx])
    unfold hashDigitsScan
    rw [hc]
    simp only [Bool.false_eq_true, if_false]
    exact ih fun hx => h (List.mem_cons_of_mem _ hx)

/-- Without a (case-insensitive) occurrence of `order` a scan that requires
the literal `order` at the match position fails; stated for the inline
classifier regex. -/
theorem inlineOrderScan_none : ∀ t : List Char, '#' ∉ t →
    containsSubCI ['o', 'r', 'd', 'e', 'r'] t = false →
    inlineOrderScan t = none := by
  intro t
  induction t with
  | nil => intro _ _; rfl
  | cons c rest ih =>
    intro hh ho
    have hsplit : startsWithListCI (c :: rest) ['o', 'r', 'd', 'e', 'r'] = false ∧
        containsSubCI ['o', 'r', 'd', 'e', 'r'] rest = false := by
      have hrw : containsSubCI ['o', 'r', 'd', 'e', 'r'] (c :: rest) =
          (startsWithListCI (c :: rest) ['o', 'r', 'd', 'e', 'r'] ||
            containsSubCI ['o', 'r', 'd', 'e', 'r'] rest) := rfl
      rw [hrw] at ho
      exact Bool.or_eq_false_iff.mp ho
    have hc : (c == '#') = false := by
      simp only [beq_eq_false_iff_ne, ne_eq]
      exact fun hx => hh (by simp [hx])
    unfold inlineOrderScan
    dsimp only
    rw [hsplit.1, hc]
    simp only [Bool.false_eq_true, if_false]
    exact ih (fun hx => hh (List.mem_cons_of_mem _ hx)) hsplit.2

/-- Analogue of `inlineOrderScan_none` for `/order\s+(?:number\s+)?(\d+)/i`. -/
theorem orderDigitsScan_none : ∀ t : List Char,
    containsSubCI ['o', 'r', 'd', 'e', 'r'] t = false →
    orderDigitsScan t = none := by
  intro t
  induction t with
  | nil => intro _; rfl
  | cons c rest ih =>
    intro ho
    have hsplit : startsWithListCI (c :: rest) ['o', 'r', 'd', 'e', 'r'] = false ∧
        containsSubCI ['o', 'r', 'd', 'e', 'r'] rest = false := by
      have hrw : containsSubCI ['o', 'r', 'd', 'e', 'r'] (c :: rest) =
          (startsWithListCI (c :: rest) ['o', 'r', 'd', 'e', 'r'] ||
            containsSubCI ['o', 'r', 'd', 'e', 'r'] rest) := rfl
      rw [hrw] at ho
      exact Bool.or_eq_false_iff.mp ho
    unfold orderDigitsScan
    dsimp only
    rw [hsplit.1]
    simp only [Bool.false_eq_true, if_false]
    exact ih hsplit.2

/-- Analogue of `inlineOrderScan_none` for `/order\s+#(\d+)/i`. -/
theorem orderHashDigitsScan_none : ∀ t : List Char,
    containsSubCI ['o', 'r', 'd', 'e', 'r'] t = false →
    orderHashDigitsScan t = none := by
  intro t
  induction t with
  | nil => intro _; rfl
  | cons c rest ih =>
    intro ho
    have hsplit : startsWithListCI (c :: rest) ['o', 'r', 'd', 'e', 'r'] = false ∧
        containsSubCI ['o', 'r', 'd', 'e', 'r'] rest = false := by
      have hrw : containsSubCI ['o', 'r', 'd', 'e', 'r'] (c :: rest) =
          (startsWithListCI (c :: rest) ['o', 'r', 'd', 'e', 'r'] ||
            containsSubCI ['o', 'r', 'd', 'e', 'r'] rest) := rfl
      rw [hrw] at ho
      exact Bool.or_eq_false_iff.mp ho
    unfold orderHashDigitsScan
    dsimp only
    rw [hsplit.1]
    simp only [Bool.false_eq_true, if_false]
    exact ih hsplit.2

/-- Counterexample for C7: `ShopifyOrdersService.extractOrderNumber` captures
digits only, so on the spec's example input it returns "2024" (the first
four-digit run), not "BLG-2024-001". -/
theorem extractOrderNumber_digits_only :
    extractOrderNumber "My order #BLG-2024-001 hasn't arrived" = some "2024" ∧
    ¬ (extractOrderNumber "My order #BLG-2024-001 hasn't arrived" = some "BLG-2024-001") :=
  ⟨by decide, by decide⟩

/-- C7 (amended): the classifier's inline regex extracts "BLG-2024-001" from
the example input and yields null when the text contains neither `#` nor
(case-insensitively) `order`; `ShopifyOrdersService.extractOrderNumber`
instead extracts "2024" from that input, and yields null only when the text
additionally contains no four consecutive digits. -/
theorem order_extraction_amended :
    extractInlineOrderNumber "My order #BLG-2024-001 hasn't arrived" = some "BLG-2024-001" ∧
    extractOrderNumber "My order #BLG-2024-001 hasn't arrived" = some "2024" ∧
    (∀ text : String, '#' ∉ text.data →
      containsSubCI "order".data text.data = false →
      extractInlineOrderNumber text = none) ∧
    (∀ text : String, '#' ∉ text.data →
      containsSubCI "order".data text.data = false →
      hasFourConsecDigits text.data = false →
      extractOrderNumber text = none) := by
  refine ⟨by decide, by decide, ?_, ?_⟩
  · intro text hh ho
    unfold extractInlineOrderNumber
    rw [inlineOrderScan_none text.data hh ho]
    rfl
  · intro text hh ho hd
    unfold extractOrderNumber
    rw [hashDigitsScan_none text.data hh, orderDigitsScan_none text.data ho,
      orderHashDigitsScan_none text.data ho, fourDigitRunScan_none text.data none hd]

/-- Witness for C7 (amended): inputs without the extraction triggers yield
no order number from either operation. -/
theorem order_extraction_amended_witness :
    extractInlineOrderNumber "no token in this text" = none ∧
    extractOrderNumber "see you at 5 pm" = none :=
  ⟨order_extraction_amended.2.2.1 "no token in this text" (by decide) (by decide),
   order_extraction_amended.2.2.2 "see you at 5 pm" (by decide) (by decide) (by decide)⟩
